import Mathlib

/-!
# Verification of the WhatsApp reminder bot's scheduling and persistence engine

Shallow embedding of `src/index.js`. The embedding models:

* the persisted `Reminder` record (the JSON shape written to `reminders.json`);
* the backing file as an explicit `FileContent` state (absent / corrupt / valid),
  so the Store operations `loadReminders`, `saveReminders`, `removeReminder`
  and the add path of `handleCommand` become pure state transformers;
* fallible file writes via an explicit `WriteOutcome` environment parameter.
  `fs.writeFileSync` writes in place: it opens the path with `O_TRUNC` and then
  writes the serialized bytes, so a failure before the open (`EACCES`, `EROFS`,
  missing directory) raises with the file untouched, while a failure after the
  open (`ENOSPC`, `EIO` mid-write) raises with the file already truncated and
  at most partially rewritten — the prior content is destroyed and what is left
  is not parseable as the stored collection.  The source has no temp-file/rename
  protocol, and it always catches and logs the raised error;
* the fire-time computation of `handleCommand` (lines 133-135) on a local
  wall-clock calendar datatype `LocalDateTime`, with the exact semantics of
  JavaScript's `setDate(getDate() - 1)` followed by `setHours(9, 0, 0, 0)`;
* the timer registry of `node-schedule` as a list of `Timer` values, and the
  fire-time callback of `scheduleNewReminder` (lines 187-197) as a function of
  the external send outcome;
* timestamps elsewhere as `Int` milliseconds since the epoch (JavaScript
  `Date.getTime()` values; `Date` comparison operators compare these numbers).
-/

namespace ReminderBot

/-- The persisted reminder record, matching the on-disk JSON shape written at
`src/index.js` lines 150-157: `id, chatId, reminderMessage, remindAt,
originalSubject, originalDate`.  The two timestamps are stored as ISO-8601
strings on disk and round-trip through `new Date(...)` to the same instant;
they are modelled as `Int` epoch milliseconds. -/
structure Reminder where
  id : String
  chatId : String
  reminderMessage : String
  remindAt : Int
  originalSubject : String
  originalDate : Int
deriving DecidableEq, Repr

/-- The observable state of the backing file `reminders.json`: missing,
present but unreadable/unparseable, or holding a valid JSON array of
reminder records. -/
inductive FileContent where
  | absent
  | corrupt
  | valid (rs : List Reminder)
deriving DecidableEq, Repr

/-- Environment outcome of one `fs.writeFileSync` call, which writes in
place (open with `O_TRUNC`, then write; no temp-file/rename):
* `ok` — the file is fully replaced by the written bytes;
* `failOpen` — the call raises before the truncating open modifies anything
  (`EACCES`, `EROFS`, missing directory): the file is untouched;
* `failMid` — the open has already truncated the file and the write raises
  before completing (`ENOSPC`, `EIO`): the prior content is destroyed and
  the file is left empty or holding a partial prefix of the new bytes,
  which is not parseable as the stored JSON array. -/
inductive WriteOutcome where
  | ok
  | failOpen
  | failMid
deriving DecidableEq, Repr

/-- Embedding of `loadReminders` (`src/index.js` lines 268-280).
`w` models the outcome of the `fs.writeFileSync(REMINDERS_FILE, '[]')`
initialization of an absent file; if that write raises (inside the `try`)
the error is caught and the function still returns `[]`, with the file left
absent (`failOpen`) or truncated/partial, hence unparseable (`failMid`).
A corrupt file makes `JSON.parse` (or the read) throw; the catch logs and
returns `[]`, leaving the file untouched.  The function is total: no error
propagates to the caller. -/
def loadReminders (w : WriteOutcome) : FileContent → List Reminder × FileContent
  | .absent =>
      ([], match w with
           | .ok => .valid []
           | .failOpen => .absent
           | .failMid => .corrupt)
  | .corrupt => ([], .corrupt)
  | .valid rs => (rs, .valid rs)

/-- Embedding of `saveReminders` (`src/index.js` lines 286-293).
`JSON.stringify` on plain reminder records cannot throw; a failing
`fs.writeFileSync` raises inside the `try` and is caught and logged, but the
in-place write means only a failure before the truncating open leaves the
prior content in place — a mid-write failure leaves the file unparseable.
Total: no error propagates to the caller. -/
def saveReminders (rs : List Reminder) (w : WriteOutcome) (f : FileContent) : FileContent :=
  match w with
  | .ok => .valid rs
  | .failOpen => f
  | .failMid => .corrupt

/-- Embedding of `removeReminder` (`src/index.js` lines 299-304): load,
filter out every record whose `id` equals `jobId` (JavaScript
`reminders.filter(r => r.id !== jobId)`), save the remainder. -/
def removeReminder (jobId : String) (w : WriteOutcome) (f : FileContent) : FileContent :=
  let p := loadReminders w f
  saveReminders (p.1.filter (fun r => r.id != jobId)) w p.2

/-- Embedding of the Store "add" path of `handleCommand`
(`src/index.js` lines 159-161): `loadReminders()`, `push(newReminder)`,
`saveReminders(reminders)`. -/
def addReminder (r : Reminder) (w : WriteOutcome) (f : FileContent) : FileContent :=
  let p := loadReminders w f
  saveReminders (p.1 ++ [r]) w p.2

/-- The job id derivation of `scheduleNewReminder` (`src/index.js` line 185):
the template literal `reminder_${chatId}_${date.getTime()}`. -/
def mkJobId (chatId : String) (timeMs : Int) : String :=
  "reminder_" ++ chatId ++ "_" ++ toString timeMs

/-- A live one-shot timer registration held by `node-schedule`: the job name,
the fire instant, and the data captured by the callback closure
(`chatId`, `message`). -/
structure Timer where
  jobId : String
  fireAt : Int
  chatId : String
  message : String
deriving DecidableEq, Repr

/-- Embedding of the registration part of `scheduleNewReminder`
(`src/index.js` lines 183-201): derive the job id from `(chatId, getTime())`,
register the timer, return the id. -/
def scheduleNewReminder (chatId message : String) (dateMs : Int) : Timer × String :=
  ({ jobId := mkJobId chatId dateMs, fireAt := dateMs, chatId := chatId, message := message },
   mkJobId chatId dateMs)

/-- Outcome of the external `client.sendMessage` call at fire time: the
awaited promise either resolves or rejects. -/
inductive SendResult where
  | ok
  | fail
deriving DecidableEq, Repr

/-- Observable state at fire time: the backing file plus the trace of
messages actually delivered to the Chat Gateway (`(chatId, text)` pairs). -/
structure FireState where
  file : FileContent
  sent : List (String × String)
deriving DecidableEq, Repr

/-- Embedding of the timer callback registered by `scheduleNewReminder`
(`src/index.js` lines 187-197):
`try { await client.sendMessage(chatId, message); removeReminder(jobId); }
catch (err) { console.error(...) }`.
When the send resolves, the message is delivered and `removeReminder` runs;
when the send rejects, control jumps to the `catch`, which only logs —
`removeReminder` is never reached and nothing is delivered. -/
def fireCallback (jobId chatId message : String) (res : SendResult) (s : FireState) :
    FireState :=
  match res with
  | .ok => { file := removeReminder jobId .ok s.file, sent := s.sent ++ [(chatId, message)] }
  | .fail => s

/-- One iteration structure of the `for` loop of `rescheduleReminders`
(`src/index.js` lines 213-223): for each stored record, if
`remindAt > now` register a timer via `scheduleNewReminder` and keep the
record in `validReminders`; otherwise skip it.  Returns the registered
timers and the kept records, in traversal order. -/
def reschedLoop (now : Int) : List Reminder → List Timer × List Reminder
  | [] => ([], [])
  | r :: rest =>
      if now < r.remindAt then
        let p := reschedLoop now rest
        ((scheduleNewReminder r.chatId r.reminderMessage r.remindAt).1 :: p.1, r :: p.2)
      else
        reschedLoop now rest

/-- Result of a startup reconciliation: the timers registered, the backing
file afterwards, and the messages sent during reconciliation (the source
contains no send call in `rescheduleReminders`, so this trace is built
empty). -/
structure ReschedResult where
  timers : List Timer
  file : FileContent
  sent : List (String × String)
deriving DecidableEq, Repr

/-- Embedding of `rescheduleReminders` (`src/index.js` lines 206-228):
load all records, walk them with the partition loop, save the kept
(`future`) records back. -/
def rescheduleReminders (now : Int) (w : WriteOutcome) (f : FileContent) : ReschedResult :=
  let p := loadReminders w f
  let q := reschedLoop now p.1
  { timers := q.1, file := saveReminders q.2 w p.2, sent := [] }

/-- Stable insertion of a record into a list sorted ascending by `remindAt`:
the building block of the embedding of the JavaScript
`sort((a, b) => new Date(a.remindAt) - new Date(b.remindAt))`, which is a
stable ascending sort by the `remindAt` instant (ES2019 `Array.sort` is
stable). -/
def insertByRemindAt (r : Reminder) : List Reminder → List Reminder
  | [] => [r]
  | x :: xs =>
      if r.remindAt < x.remindAt then r :: x :: xs
      else x :: insertByRemindAt r xs

/-- Stable ascending sort by `remindAt`, embedding the `Array.sort` call of
`listReminders` (`src/index.js` line 246). -/
def sortByRemindAt : List Reminder → List Reminder
  | [] => []
  | r :: rs => insertByRemindAt r (sortByRemindAt rs)

/-- Embedding of the observable sequence produced by `listReminders`
(`src/index.js` lines 235-258): load the full collection from the Store,
filter by `r.chatId === chatId`, sort ascending by `remindAt`.  The reply
text is rendered by iterating this sequence.  The Store is re-read on every
call (`loadReminders()` at line 236), so the result is recomputed, never
cached. -/
def listReminders (chatId : String) (f : FileContent) : List Reminder :=
  sortByRemindAt (((loadReminders .ok f).1).filter (fun r => r.chatId == chatId))

/-- A local wall-clock date and time, the broken-down view of a JavaScript
`Date` in local time: `getFullYear / getMonth+1 / getDate / getHours /
getMinutes / getSeconds / getMilliseconds`.  Months are 1-12 here (JavaScript
`getMonth` is 0-based; the shift is irrelevant to the modelled operations,
which only subtract a day and force the time). -/
structure LocalDateTime where
  year : Int
  month : Int
  day : Int
  hour : Int
  minute : Int
  second : Int
  ms : Int
deriving DecidableEq, Repr

/-- Proleptic Gregorian leap-year rule, as implemented by JavaScript `Date`
arithmetic. -/
def isLeapYear (y : Int) : Bool :=
  (y % 4 == 0 && y % 100 != 0) || y % 400 == 0

/-- Length of a month in the proleptic Gregorian calendar. -/
def daysInMonth (y m : Int) : Int :=
  if m = 2 then (if isLeapYear y then 29 else 28)
  else if m = 4 ∨ m = 6 ∨ m = 9 ∨ m = 11 then 30
  else 31

/-- The date fields denote a real calendar day.  A JavaScript `Date` is
always normalized, so every `parsedDate` handed to `handleCommand` by
`chrono.parse` satisfies this. -/
def ValidDate (d : LocalDateTime) : Prop :=
  1 ≤ d.month ∧ d.month ≤ 12 ∧ 1 ≤ d.day ∧ d.day ≤ daysInMonth d.year d.month

/-- Embedding of `remindAt.setDate(remindAt.getDate() - 1)`
(`src/index.js` line 134) on a normalized date.  JavaScript semantics of
`setDate(n)` for `n = getDate() - 1`: if the current day-of-month is at
least 2 the argument is a valid day of the same month; if the day is 1 the
argument is 0, which normalizes to the last day of the previous month
(rolling the year back across January).  Time-of-day fields are untouched. -/
def jsSetDateMinusOne (d : LocalDateTime) : LocalDateTime :=
  if 2 ≤ d.day then { d with day := d.day - 1 }
  else if 2 ≤ d.month then { d with month := d.month - 1, day := daysInMonth d.year (d.month - 1) }
  else { d with year := d.year - 1, month := 12, day := 31 }

/-- Embedding of `remindAt.setHours(9, 0, 0, 0)` (`src/index.js` line 135):
forces hours, minutes, seconds and milliseconds; an in-range hour argument
never changes the date fields. -/
def jsSetHours9 (d : LocalDateTime) : LocalDateTime :=
  { d with hour := 9, minute := 0, second := 0, ms := 0 }

/-- The fire-time computation of `handleCommand` (`src/index.js`
lines 133-135): copy `parsedDate`, step the date back one day, force the
time to 09:00:00.000 local. -/
def computeRemindAt (parsedDate : LocalDateTime) : LocalDateTime :=
  jsSetHours9 (jsSetDateMinusOne parsedDate)

/-- Strict calendar order on the date parts (time-of-day ignored):
`a`'s calendar day precedes `b`'s. -/
def dateLt (a b : LocalDateTime) : Prop :=
  a.year < b.year ∨
    (a.year = b.year ∧ (a.month < b.month ∨ (a.month = b.month ∧ a.day < b.day)))

/-- The message template of `handleCommand` (`src/index.js` line 144):
a fixed header plus the subject. -/
def reminderTemplate (subject : String) : String :=
  "🔔 *REMINDER* 🔔\n\nTomorrow: " ++ subject ++ " 📅"

/-- The record persisted by `handleCommand` (`src/index.js` lines 150-157)
for a given chat, subject, parsed event instant and computed fire instant. -/
def newReminderFor (chatId subject : String) (parsedDateMs remindAtMs : Int) : Reminder :=
  { id := mkJobId chatId remindAtMs
    chatId := chatId
    reminderMessage := reminderTemplate subject
    remindAt := remindAtMs
    originalSubject := subject
    originalDate := parsedDateMs }

/-- Outcome of the create path of `handleCommand`: either the too-soon/past
rejection reply of line 139, or acceptance with the created record. -/
inductive CreateOutcome where
  | rejectedTooSoon
  | accepted (r : Reminder)
deriving DecidableEq, Repr

/-- Observable result of the create path: the outcome, the backing file
afterwards, and the timers registered during the call. -/
structure CreateResult where
  outcome : CreateOutcome
  file : FileContent
  timers : List Timer
deriving DecidableEq, Repr

/-- Embedding of the create path of `handleCommand` (`src/index.js`
lines 137-164), from the already-computed fire instant on: the guard
`if (remindAt < new Date())` replies and stops with no state change;
otherwise the message is rendered, `scheduleNewReminder` registers the
timer and returns the job id, and the record is appended to the Store.
`remindAtMs` is the epoch-millisecond instant of the `remindAt` `Date`
computed at lines 133-135 (`computeRemindAt` is its calendar view), and
`now` that of `new Date()` at line 138. -/
def handleCreate (now : Int) (chatId subject : String) (parsedDateMs remindAtMs : Int)
    (w : WriteOutcome) (f : FileContent) : CreateResult :=
  if remindAtMs < now then
    { outcome := .rejectedTooSoon, file := f, timers := [] }
  else
    let sched := scheduleNewReminder chatId (reminderTemplate subject) remindAtMs
    let newReminder := newReminderFor chatId subject parsedDateMs remindAtMs
    { outcome := .accepted newReminder
      file := addReminder newReminder w f
      timers := [sched.1] }

/-! ## Helper lemmas -/

theorem insertByRemindAt_perm (r : Reminder) (l : List Reminder) :
    (insertByRemindAt r l).Perm (r :: l) := by
  induction l with
  | nil => exact List.Perm.refl _
  | cons x xs ih =>
      rw [insertByRemindAt]
      by_cases h : r.remindAt < x.remindAt
      · rw [if_pos h]
      · rw [if_neg h]
        exact (ih.cons x).trans (List.Perm.swap r x xs)

theorem sortByRemindAt_perm (l : List Reminder) : (sortByRemindAt l).Perm l := by
  induction l with
  | nil => exact List.Perm.refl _
  | cons r rs ih => exact (insertByRemindAt_perm r (sortByRemindAt rs)).trans (ih.cons r)

theorem insertByRemindAt_pairwise (r : Reminder) (l : List Reminder)
    (h : l.Pairwise (fun a b => a.remindAt ≤ b.remindAt)) :
    (insertByRemindAt r l).Pairwise (fun a b => a.remindAt ≤ b.remindAt) := by
  induction l with
  | nil => simp [insertByRemindAt]
  | cons x xs ih =>
      rw [insertByRemindAt]
      rcases List.pairwise_cons.mp h with ⟨hx, hxs⟩
      by_cases hc : r.remindAt < x.remindAt
      · rw [if_pos hc]
        refine List.pairwise_cons.mpr ⟨?_, h⟩
        intro b hb
        rcases List.mem_cons.mp hb with hb | hb
        · exact hb ▸ le_of_lt hc
        · exact le_trans (le_of_lt hc) (hx b hb)
      · rw [if_neg hc]
        refine List.pairwise_cons.mpr ⟨?_, ih hxs⟩
        intro b hb
        rcases List.mem_cons.mp ((insertByRemindAt_perm r xs).mem_iff.mp hb) with hb2 | hb2
        · exact hb2 ▸ le_of_not_lt hc
        · exact hx b hb2

theorem sortByRemindAt_pairwise (l : List Reminder) :
    (sortByRemindAt l).Pairwise (fun a b => a.remindAt ≤ b.remindAt) := by
  induction l with
  | nil => simp [sortByRemindAt]
  | cons r rs ih => exact insertByRemindAt_pairwise r _ ih

theorem reschedLoop_eq (now : Int) (l : List Reminder) :
    reschedLoop now l =
      ((l.filter (fun r => decide (now < r.remindAt))).map
          (fun r => (scheduleNewReminder r.chatId r.reminderMessage r.remindAt).1),
        l.filter (fun r => decide (now < r.remindAt))) := by
  induction l with
  | nil => rfl
  | cons r rest ih =>
      rw [reschedLoop]
      by_cases h : now < r.remindAt
      · rw [if_pos h, ih]
        simp [List.filter_cons, h]
      · rw [if_neg h, ih]
        simp [List.filter_cons, h]

theorem daysInMonth_bounds (y m : Int) : 28 ≤ daysInMonth y m ∧ daysInMonth y m ≤ 31 := by
  unfold daysInMonth
  split_ifs <;> omega

theorem daysInMonth_december (y : Int) : daysInMonth y 12 = 31 := rfl

instance decidableValidDate (d : LocalDateTime) : Decidable (ValidDate d) := by
  unfold ValidDate
  infer_instance

theorem jsSetDateMinusOne_valid (d : LocalDateTime) (hd : ValidDate d) :
    ValidDate (jsSetDateMinusOne d) := by
  obtain ⟨h1, h2, h3, h4⟩ := hd
  have hb := daysInMonth_bounds d.year (d.month - 1)
  unfold jsSetDateMinusOne ValidDate
  split_ifs with hday hm
  · dsimp only
    omega
  · dsimp only
    omega
  · dsimp only
    rw [daysInMonth_december]
    omega

theorem jsSetDateMinusOne_lt (d : LocalDateTime) (hd : ValidDate d) :
    dateLt (jsSetDateMinusOne d) d := by
  obtain ⟨h1, h2, h3, h4⟩ := hd
  unfold jsSetDateMinusOne
  split_ifs with hday hm
  · exact Or.inr ⟨rfl, Or.inr ⟨rfl, show d.day - 1 < d.day by omega⟩⟩
  · exact Or.inr ⟨rfl, Or.inl (show d.month - 1 < d.month by omega)⟩
  · exact Or.inl (show d.year - 1 < d.year by omega)

theorem jsSetDateMinusOne_maximal (d e : LocalDateTime) (hd : ValidDate d)
    (he : ValidDate e) : ¬ (dateLt (jsSetDateMinusOne d) e ∧ dateLt e d) := by
  obtain ⟨hd1, hd2, hd3, hd4⟩ := hd
  obtain ⟨he1, he2, he3, he4⟩ := he
  rintro ⟨hre, hed⟩
  unfold jsSetDateMinusOne at hre
  split_ifs at hre with hday hm
  · unfold dateLt at hre hed
    dsimp only at hre
    omega
  · unfold dateLt at hre hed
    dsimp only at hre
    rcases hre with hy | ⟨hy, hre2⟩
    · omega
    · rcases hre2 with hm2 | ⟨hm2, hcrit⟩
      · omega
      · have hcong : daysInMonth e.year e.month = daysInMonth d.year (d.month - 1) := by
          rw [← hy, ← hm2]
        omega
  · unfold dateLt at hre hed
    dsimp only at hre
    rcases hre with hy | ⟨hy, hre2⟩
    · omega
    · rcases hre2 with hm2 | ⟨hm2, hd31⟩
      · omega
      · have h31 : daysInMonth e.year e.month = 31 := by
          rw [← hm2, daysInMonth_december]
        omega

/-! ## Claim theorems -/

/-- C3: for every normalized event date accepted by the create path, the
computed fire time is the event date shifted back exactly one calendar day
— its date is a valid calendar day, strictly earlier than the event's date,
with no valid calendar day strictly between the two — and its time-of-day
is forced to 09:00:00.000 local. -/
theorem computeRemindAt_prev_calendar_day_at_nine (d e : LocalDateTime)
    (hd : ValidDate d) (he : ValidDate e) :
    ValidDate (computeRemindAt d) ∧
    (computeRemindAt d).hour = 9 ∧ (computeRemindAt d).minute = 0 ∧
    (computeRemindAt d).second = 0 ∧ (computeRemindAt d).ms = 0 ∧
    dateLt (computeRemindAt d) d ∧
    ¬ (dateLt (computeRemindAt d) e ∧ dateLt e d) :=
  ⟨jsSetDateMinusOne_valid d hd, rfl, rfl, rfl, rfl, jsSetDateMinusOne_lt d hd,
   jsSetDateMinusOne_maximal d e hd he⟩

/-- C3 witness: the event date 2024-03-01 15:30:45.500 local yields the fire
time 2024-02-29 (the leap day — exactly one calendar day earlier) at
09:00:00.000; 2024-02-15 plays the role of the third date in the
no-day-between clause. -/
theorem computeRemindAt_prev_calendar_day_at_nine_witness :
    (ValidDate ⟨2024, 3, 1, 15, 30, 45, 500⟩ ∧ ValidDate ⟨2024, 2, 15, 0, 0, 0, 0⟩) ∧
    (ValidDate (computeRemindAt ⟨2024, 3, 1, 15, 30, 45, 500⟩) ∧
      (computeRemindAt ⟨2024, 3, 1, 15, 30, 45, 500⟩).hour = 9 ∧
      (computeRemindAt ⟨2024, 3, 1, 15, 30, 45, 500⟩).minute = 0 ∧
      (computeRemindAt ⟨2024, 3, 1, 15, 30, 45, 500⟩).second = 0 ∧
      (computeRemindAt ⟨2024, 3, 1, 15, 30, 45, 500⟩).ms = 0 ∧
      dateLt (computeRemindAt ⟨2024, 3, 1, 15, 30, 45, 500⟩) ⟨2024, 3, 1, 15, 30, 45, 500⟩ ∧
      ¬ (dateLt (computeRemindAt ⟨2024, 3, 1, 15, 30, 45, 500⟩) ⟨2024, 2, 15, 0, 0, 0, 0⟩ ∧
          dateLt ⟨2024, 2, 15, 0, 0, 0, 0⟩ ⟨2024, 3, 1, 15, 30, 45, 500⟩)) :=
  ⟨⟨by decide, by decide⟩,
   computeRemindAt_prev_calendar_day_at_nine ⟨2024, 3, 1, 15, 30, 45, 500⟩
     ⟨2024, 2, 15, 0, 0, 0, 0⟩ (by decide) (by decide)⟩

/-- C1 (counterexample): the claim says the fired callback removes the
record from the Store even when the send fails.  On the concrete state
holding exactly the fired reminder, a failing send leaves the file
unchanged — the record is still present — although `removeReminder` on
that very state would have emptied it.  In the source, `removeReminder`
sits after `await client.sendMessage` inside the `try`, so a rejected
send jumps to the `catch` before removal. -/
theorem sendFail_record_not_removed :
    fireCallback "reminder_c_9" "c" "m" .fail
        { file := .valid [{ id := "reminder_c_9", chatId := "c", reminderMessage := "m",
                            remindAt := 9, originalSubject := "s", originalDate := 10 }],
          sent := [] } =
      { file := .valid [{ id := "reminder_c_9", chatId := "c", reminderMessage := "m",
                          remindAt := 9, originalSubject := "s", originalDate := 10 }],
        sent := [] } ∧
    removeReminder "reminder_c_9" .ok
        (.valid [{ id := "reminder_c_9", chatId := "c", reminderMessage := "m",
                   remindAt := 9, originalSubject := "s", originalDate := 10 }]) =
      .valid [] := by
  exact ⟨rfl, by decide⟩

/-- C1 (amended): the fired callback attempts the send first; only when the
send succeeds is the message delivered and every record with the fired job
id removed from the Store.  When the send fails, the callback's `catch`
only logs: the Store and the delivery trace are left entirely unchanged,
so the record survives the failed fire. -/
theorem fireCallback_removes_only_on_success (jobId chatId message : String)
    (rs : List Reminder) (sent0 : List (String × String)) :
    ((fireCallback jobId chatId message .ok { file := .valid rs, sent := sent0 }).file =
        .valid (rs.filter (fun r => r.id != jobId)) ∧
      (fireCallback jobId chatId message .ok { file := .valid rs, sent := sent0 }).sent =
        sent0 ++ [(chatId, message)]) ∧
    fireCallback jobId chatId message .fail { file := .valid rs, sent := sent0 } =
      { file := .valid rs, sent := sent0 } :=
  ⟨⟨rfl, rfl⟩, rfl⟩

/-- C2 (counterexample): the claim says a request whose computed `fireAt`
is not strictly after `now` (`fireAt ≤ now`) is rejected with no record and
no timer.  At `fireAt = now = 0` the source's guard `remindAt < new Date()`
is false, so the request is accepted: the record is appended to the Store
and a timer is registered. -/
theorem handleCreate_accepts_fireAt_eq_now :
    (handleCreate 0 "group" "pay fees" 86400000 0 .ok (.valid [])).outcome ≠
        CreateOutcome.rejectedTooSoon ∧
    (handleCreate 0 "group" "pay fees" 86400000 0 .ok (.valid [])).file =
      .valid [newReminderFor "group" "pay fees" 86400000 0] ∧
    (handleCreate 0 "group" "pay fees" 86400000 0 .ok (.valid [])).timers ≠ [] := by
  refine ⟨?_, rfl, ?_⟩ <;> decide

/-- C2 (amended): a create request is rejected with the too-soon/past reply
— leaving the Store untouched and registering no timer — exactly when the
computed `fireAt` is strictly before the current instant (`fireAt < now`);
when `fireAt ≥ now` (including `fireAt` equal to `now`) the request is
accepted, the record is appended to the Store and its timer is registered,
so every reminder accepted into the Store has `fireAt ≥ now` (not
necessarily strictly greater) at the moment of acceptance. -/
theorem handleCreate_reject_iff_strictly_past (now : Int) (chatId subject : String)
    (parsedDateMs remindAtMs : Int) (rs : List Reminder) :
    (remindAtMs < now →
      handleCreate now chatId subject parsedDateMs remindAtMs .ok (.valid rs) =
        { outcome := .rejectedTooSoon, file := .valid rs, timers := [] }) ∧
    (now ≤ remindAtMs →
      handleCreate now chatId subject parsedDateMs remindAtMs .ok (.valid rs) =
        { outcome := .accepted (newReminderFor chatId subject parsedDateMs remindAtMs)
          file := .valid (rs ++ [newReminderFor chatId subject parsedDateMs remindAtMs])
          timers := [{ jobId := mkJobId chatId remindAtMs, fireAt := remindAtMs,
                       chatId := chatId, message := reminderTemplate subject }] }) := by
  constructor
  · intro h
    rw [handleCreate, if_pos h]
  · intro h
    rw [handleCreate, if_neg (not_lt.mpr h)]
    rfl

/-- C2 witness: a strictly past fire instant (3 < 10) is rejected without
touching the Store; a fire instant equal to `now` (10 ≤ 10) is accepted,
stored and scheduled. -/
theorem handleCreate_reject_iff_strictly_past_witness :
    handleCreate 10 "g" "s" 5 3 .ok (.valid []) =
      { outcome := .rejectedTooSoon, file := .valid [], timers := [] } ∧
    handleCreate 10 "g" "s" 99 10 .ok (.valid []) =
      { outcome := .accepted (newReminderFor "g" "s" 99 10)
        file := .valid [newReminderFor "g" "s" 99 10]
        timers := [{ jobId := mkJobId "g" 10, fireAt := 10, chatId := "g",
                     message := reminderTemplate "s" }] } :=
  ⟨(handleCreate_reject_iff_strictly_past 10 "g" "s" 5 3 []).1 (by decide),
   (handleCreate_reject_iff_strictly_past 10 "g" "s" 99 10 []).2 (by decide)⟩

/-- C4: on any stored collection, startup reconciliation keeps and saves
exactly the records with `fireAt` strictly after `now` (the past ones,
`fireAt ≤ now`, are dropped from the saved file), registers one timer per
kept record (derived from that record's chat, message and fire instant),
and sends nothing. -/
theorem rescheduleReminders_partitions (now : Int) (rs : List Reminder) :
    (rescheduleReminders now .ok (.valid rs)).file =
      .valid (rs.filter (fun r => decide (now < r.remindAt))) ∧
    (rescheduleReminders now .ok (.valid rs)).timers =
      (rs.filter (fun r => decide (now < r.remindAt))).map
        (fun r => { jobId := mkJobId r.chatId r.remindAt, fireAt := r.remindAt,
                    chatId := r.chatId, message := r.reminderMessage }) ∧
    (rescheduleReminders now .ok (.valid rs)).sent = [] := by
  refine ⟨?_, ?_, rfl⟩ <;>
    simp [rescheduleReminders, loadReminders, saveReminders, reschedLoop_eq,
      scheduleNewReminder]

/-- C5: for any stored collection and chat, the listing is a permutation of
exactly the records whose `chatId` matches, and it is sorted ascending by
`remindAt` (adjacent-free pairwise order), independent of creation order.
`listReminders` re-reads the Store on each call by construction. -/
theorem listReminders_filter_sort (chatId : String) (rs : List Reminder) :
    (listReminders chatId (.valid rs)).Perm (rs.filter (fun r => r.chatId == chatId)) ∧
    (listReminders chatId (.valid rs)).Pairwise (fun a b => a.remindAt ≤ b.remindAt) :=
  ⟨sortByRemindAt_perm _, sortByRemindAt_pairwise _⟩

/-- C6: `loadReminders` is total — no fatal error propagates, and it always
returns a sequence.  An absent file is initialized to the empty collection
and the call returns empty (even if that initializing write itself fails,
the call still returns empty, with the file staying absent on an open
failure or left unparseable on a mid-write failure); a corrupt file yields
the empty collection with the file untouched; a valid file yields its
records unchanged. -/
theorem loadReminders_total_fallbacks :
    (loadReminders .ok .absent = ([], .valid []) ∧
      loadReminders .failOpen .absent = ([], .absent) ∧
      loadReminders .failMid .absent = ([], .corrupt)) ∧
    (∀ w : WriteOutcome, loadReminders w .corrupt = ([], .corrupt)) ∧
    (∀ (w : WriteOutcome) (rs : List Reminder),
      loadReminders w (.valid rs) = (rs, .valid rs)) :=
  ⟨⟨rfl, rfl, rfl⟩, fun _ => rfl, fun _ _ => rfl⟩

/-- C7: for any valid stored collection, saving back what was just loaded
leaves the Store's observable content unchanged record-for-record and
field-for-field. -/
theorem save_load_roundtrip (w : WriteOutcome) (rs : List Reminder) :
    saveReminders (loadReminders w (.valid rs)).1 .ok (loadReminders w (.valid rs)).2 =
      .valid rs :=
  rfl

/-- C8: removing an id that no stored record carries is a no-op on the
Store's content; `removeReminder` is a total function, so no error is
raised either. -/
theorem removeReminder_missing_id_noop (jobId : String) (rs : List Reminder)
    (h : ∀ r ∈ rs, r.id ≠ jobId) :
    removeReminder jobId .ok (.valid rs) = .valid rs := by
  simp only [removeReminder, loadReminders, saveReminders, if_pos]
  congr 1
  refine List.filter_eq_self.mpr ?_
  intro r hr
  simpa using h r hr

/-- C8 witness: removing the absent id "nope" from a one-record collection
leaves the collection unchanged. -/
theorem removeReminder_missing_id_noop_witness :
    (∀ r ∈ [({ id := "reminder_c_9", chatId := "c", reminderMessage := "m",
               remindAt := 9, originalSubject := "s", originalDate := 10 } : Reminder)],
        r.id ≠ "nope") ∧
    removeReminder "nope" .ok
        (.valid [{ id := "reminder_c_9", chatId := "c", reminderMessage := "m",
                   remindAt := 9, originalSubject := "s", originalDate := 10 }]) =
      .valid [{ id := "reminder_c_9", chatId := "c", reminderMessage := "m",
                remindAt := 9, originalSubject := "s", originalDate := 10 }] :=
  ⟨by decide,
   removeReminder_missing_id_noop "nope"
     [{ id := "reminder_c_9", chatId := "c", reminderMessage := "m",
        remindAt := 9, originalSubject := "s", originalDate := 10 }] (by decide)⟩

/-- C9 (counterexample): the claim says that on a failed write the backing
file retains its prior content.  `saveReminders` writes in place
(`fs.writeFileSync` at `src/index.js` line 289 opens with `O_TRUNC`; there
is no temp-file/rename), so at the concrete prior content holding one
record, a save whose write fails mid-way leaves the file truncated and
unparseable — not the prior content.  The same happens when the failing
save runs inside `removeReminder`. -/
theorem saveMidWriteFail_loses_prior :
    saveReminders [] .failMid
        (.valid [{ id := "reminder_k_7", chatId := "k", reminderMessage := "w",
                   remindAt := 7, originalSubject := "t", originalDate := 8 }]) =
      .corrupt ∧
    removeReminder "reminder_k_7" .failMid
        (.valid [{ id := "reminder_k_7", chatId := "k", reminderMessage := "w",
                   remindAt := 7, originalSubject := "t", originalDate := 8 }]) =
      .corrupt ∧
    FileContent.corrupt ≠
      .valid [{ id := "reminder_k_7", chatId := "k", reminderMessage := "w",
                remindAt := 7, originalSubject := "t", originalDate := 8 }] := by
  exact ⟨rfl, rfl, by decide⟩

/-- C9 (amended): `saveReminders` catches its own failures (it is a total
function, so `addReminder`, `removeReminder` and `rescheduleReminders`
always complete, never raising), but the write is in place: a write that
fails before the truncating open leaves the backing file with its prior
content, while a write that fails mid-way leaves it truncated/partial and
unparseable — the prior content is lost, for save itself and for every
Store-mutating operation built on it; the next load then treats the file
as the empty collection and the bot keeps running. -/
theorem saveReminders_caught_failures (rs : List Reminder) (f : FileContent)
    (r0 : Reminder) (jobId : String) (now : Int) :
    (saveReminders rs .failOpen f = f ∧
      removeReminder jobId .failOpen f = f ∧
      addReminder r0 .failOpen f = f ∧
      (rescheduleReminders now .failOpen f).file = f) ∧
    (saveReminders rs .failMid f = .corrupt ∧
      removeReminder jobId .failMid f = .corrupt ∧
      addReminder r0 .failMid f = .corrupt ∧
      (rescheduleReminders now .failMid f).file = .corrupt) ∧
    (∀ w : WriteOutcome, (loadReminders w (saveReminders rs .failMid f)).1 = []) := by
  refine ⟨⟨rfl, ?_, ?_, ?_⟩, ⟨rfl, ?_, ?_, ?_⟩, fun w => rfl⟩ <;> cases f <;> rfl

/-- C10: a single `removeReminder` call deletes every record whose id
matches, not just the first — the resulting collection is the filter of the
old one, and no record with the removed id survives, even when the
collection holds several records with the same id (the same-chat,
same-millisecond collision). -/
theorem removeReminder_removes_all_matching (jobId : String) (rs : List Reminder) :
    removeReminder jobId .ok (.valid rs) =
      .valid (rs.filter (fun r => r.id != jobId)) ∧
    (rs.filter (fun r => r.id != jobId)).all (fun r => r.id != jobId) = true := by
  refine ⟨rfl, ?_⟩
  simp only [List.all_eq_true]
  intro r hr
  exact (List.mem_filter.mp hr).2

end ReminderBot
